import Mathlib

/-!
Shallow embedding of the NexusAuto front end: the client-side session
store, the HTTP response interceptor, the route guard, the form
validators, and the edge middleware, together with theorems about them.

Source files embedded: `src/lib/types.ts` (DTOs, axios interceptors,
`handleApiError`), the `ProtectedRoute` guard, `src/middleware.ts`,
`src/components/auth/RegisterForm.tsx` (`validateForm`), and
`src/components/profile/ProfileManager.tsx` (`validatePassword`).
The Zustand session store itself (`src/lib/store/auth`) is not part of
the sources; its operations are modelled from the specification.
-/

namespace NexusAuto

/-- The closed role union from `src/lib/types.ts` (`UserRole`). -/
inductive Role where
  | ROLE_CUSTOMER
  | ROLE_EMPLOYEE
  | ROLE_ADMIN
deriving DecidableEq, Repr

/-- `UserResponse` DTO from `src/lib/types.ts`. -/
structure UserResponse where
  id : Nat
  firstName : String
  lastName : String
  email : String
  role : Role
  enabled : Bool
deriving DecidableEq, Repr

/-- `AuthState` from `src/lib/types.ts` lines 44-49. -/
structure AuthState where
  token : Option String
  user : Option UserResponse
  isLoading : Bool
  isAuthenticated : Bool
deriving DecidableEq, Repr

/-- Modelled from the spec: the Session Store (`src/lib/store/auth` is not
among the sources) starts empty at process start: no token, no user, not
loading, not authenticated. -/
def emptySession : AuthState :=
  { token := none, user := none, isLoading := false, isAuthenticated := false }

/-- Modelled from the spec: `login(token, user)` sets token and user and
marks the session authenticated. -/
def login (st : AuthState) (t : String) (u : UserResponse) : AuthState :=
  { st with token := some t, user := some u, isAuthenticated := true }

/-- Modelled from the spec: `logout()` clears token and user and marks the
session unauthenticated. -/
def logout (st : AuthState) : AuthState :=
  { st with token := none, user := none, isAuthenticated := false }

/-- Modelled from the spec: `updateUser(user)` replaces the cached user
record without touching the token. -/
def updateUser (st : AuthState) (u : UserResponse) : AuthState :=
  { st with user := some u }

/-- Modelled from the spec: `setLoading(bool)` tracks in-flight
authentication checks. -/
def setLoading (st : AuthState) (b : Bool) : AuthState :=
  { st with isLoading := b }

/-- One mutating call against the Session Store, as named in the spec's
session lifecycle (`login` / `logout` / `updateUser`). -/
inductive SessionOp where
  | login (t : String) (u : UserResponse)
  | logout
  | updateUser (u : UserResponse)
deriving DecidableEq, Repr

/-- Apply one Session Store call to a state. -/
def applyOp (st : AuthState) : SessionOp → AuthState
  | SessionOp.login t u => login st t u
  | SessionOp.logout => logout st
  | SessionOp.updateUser u => updateUser st u

/-- Run a sequence of Session Store calls from the empty session.  The
state after any prefix of a call sequence is `runOps` of that prefix, so
quantifying over all sequences covers every observable state. -/
def runOps (ops : List SessionOp) : AuthState :=
  ops.foldl applyOp emptySession

/-- Strengthened session invariant: `isAuthenticated` is the conjunction
of token and user presence, and a token is never held without a user. -/
def SessionInv (st : AuthState) : Prop :=
  st.isAuthenticated = (st.token.isSome && st.user.isSome) ∧
  (st.token.isSome = true → st.user.isSome = true)

theorem sessionInv_empty : SessionInv emptySession := by
  constructor <;> simp [emptySession]

theorem sessionInv_apply (st : AuthState) (h : SessionInv st) (op : SessionOp) :
    SessionInv (applyOp st op) := by
  obtain ⟨h1, h2⟩ := h
  cases op with
  | login t u => constructor <;> simp [applyOp, login]
  | logout => constructor <;> simp [applyOp, logout]
  | updateUser u =>
    constructor
    · cases htok : st.token with
      | none => simp [applyOp, updateUser, htok] at h1 ⊢; simpa [htok] using h1
      | some t =>
        have hu : st.user.isSome = true := h2 (by simp [htok])
        simp [applyOp, updateUser, htok] at h1 ⊢
        simpa [htok, hu] using h1
    · intro _; simp [applyOp, updateUser]

theorem sessionInv_foldl (ops : List SessionOp) :
    ∀ st : AuthState, SessionInv st → SessionInv (ops.foldl applyOp st) := by
  induction ops with
  | nil => intro st h; exact h
  | cons op rest ih =>
    intro st h
    exact ih (applyOp st op) (sessionInv_apply st h op)

/-- **C1.** Session Store invariant: after any sequence of
`login`/`logout`/`updateUser` calls starting from the empty session, the
derived field `isAuthenticated` equals (token is non-null AND user is
non-null).  Since the state between any two calls is `runOps` of the
prefix executed so far, this covers every observable intermediate state,
and in particular no operation produces a state where `isAuthenticated`
is true while `token` or `user` is null. -/
theorem sessionStore_isAuthenticated_derived (ops : List SessionOp) :
    (runOps ops).isAuthenticated =
      ((runOps ops).token.isSome && (runOps ops).user.isSome) :=
  (sessionInv_foldl ops emptySession sessionInv_empty).1

/-- The shape of the error object seen by the axios response interceptor
in `src/lib/types.ts`: `error.response?.status` is `none` exactly when no
response arrived (network failure). -/
structure ApiError where
  status : Option Nat
  message : String
deriving DecidableEq, Repr

/-- Outcome of the response-error interceptor: the Session Store after it
ran, the hard navigations it performed (`window.location.href`
assignments), and the error it rejects to the caller. -/
structure InterceptOutcome where
  store : AuthState
  hardRedirects : List String
  rejected : ApiError
deriving DecidableEq, Repr

/-- The rejection handler of `apiClient.interceptors.response.use` in
`src/lib/types.ts` lines 110-135: on status 401 it calls the store's
`logout` and, when running in a browser, assigns
`window.location.href = "/login"`; on 403 and on missing response it only
logs to the console; in all cases it returns `Promise.reject(error)` with
the original error. -/
def onResponseError (st : AuthState) (e : ApiError) (inBrowser : Bool) :
    InterceptOutcome :=
  if e.status = some 401 then
    { store := logout st
      hardRedirects := if inBrowser then ["/login"] else []
      rejected := e }
  else
    { store := st, hardRedirects := [], rejected := e }

/-- **C2.** A 401 response received through the client wrapper clears the
session (token and user become null via the store's `logout`), performs
one hard navigation to `/login` (in the browser), and still rejects the
error to the caller unchanged. -/
theorem interceptor_401_clears_session_and_redirects
    (st : AuthState) (e : ApiError) (h : e.status = some 401) :
    (onResponseError st e true).store.token = none ∧
    (onResponseError st e true).store.user = none ∧
    (onResponseError st e true).hardRedirects = ["/login"] ∧
    (onResponseError st e true).rejected = e := by
  simp [onResponseError, h, logout]

/-- Witness for C2 at a concrete state and error. -/
theorem interceptor_401_clears_session_and_redirects_witness :
    (onResponseError
        { token := some "tok", user := none, isLoading := false,
          isAuthenticated := false }
        { status := some 401, message := "Unauthorized" } true).store.token
        = none ∧
    (onResponseError
        { token := some "tok", user := none, isLoading := false,
          isAuthenticated := false }
        { status := some 401, message := "Unauthorized" } true).store.user
        = none ∧
    (onResponseError
        { token := some "tok", user := none, isLoading := false,
          isAuthenticated := false }
        { status := some 401, message := "Unauthorized" } true).hardRedirects
        = ["/login"] ∧
    (onResponseError
        { token := some "tok", user := none, isLoading := false,
          isAuthenticated := false }
        { status := some 401, message := "Unauthorized" } true).rejected
        = { status := some 401, message := "Unauthorized" } :=
  interceptor_401_clears_session_and_redirects
    { token := some "tok", user := none, isLoading := false,
      isAuthenticated := false }
    { status := some 401, message := "Unauthorized" } rfl

/-- **C3.** A 403 response received through the client wrapper leaves the
Session Store unchanged (no logout), fires no navigation, and propagates
the error object to the caller unchanged. -/
theorem interceptor_403_preserves_session
    (st : AuthState) (e : ApiError) (b : Bool) (h : e.status = some 403) :
    onResponseError st e b =
      { store := st, hardRedirects := [], rejected := e } := by
  simp [onResponseError, h]

/-- Witness for C3 at a concrete state and error. -/
theorem interceptor_403_preserves_session_witness :
    onResponseError
        { token := some "tok", user := none, isLoading := false,
          isAuthenticated := false }
        { status := some 403, message := "Forbidden" } true =
      { store := { token := some "tok", user := none, isLoading := false,
                   isAuthenticated := false }
        hardRedirects := []
        rejected := { status := some 403, message := "Forbidden" } } :=
  interceptor_403_preserves_session
    { token := some "tok", user := none, isLoading := false,
      isAuthenticated := false }
    { status := some 403, message := "Forbidden" } true rfl

/-- The `unknown` value passed to `handleApiError`: either an axios error
(with an optional structured backend payload `error.response?.data` and a
transport-level `error.message`) or anything else. -/
inductive AppError where
  | axios (responseData : Option String) (message : String)
  | other
deriving DecidableEq, Repr

/-- `handleApiError` from `src/lib/types.ts` lines 226-231: for an axios
error it returns `error.response?.data || error.message` (the `||` falls
through on a missing or empty payload), otherwise the generic fallback
string.  It is a total Lean function, hence never throws. -/
def handleApiError : AppError → String
  | AppError.axios d m =>
    match d with
    | some s => if s = "" then m else s
    | none => m
  | AppError.other => "An unexpected error occurred. Please try again."

/-- **C7.** Error normalization is total and pure: an axios error with a
non-empty structured backend payload yields that payload, an axios error
without one (missing or empty) yields the transport-level message, and
any other error yields the generic fallback string.  Totality of the Lean
function witnesses that it cannot itself throw. -/
theorem handleApiError_normalization (d m : String) :
    handleApiError (AppError.axios (some d) m) = (if d = "" then m else d) ∧
    handleApiError (AppError.axios none m) = m ∧
    handleApiError AppError.other =
      "An unexpected error occurred. Please try again." :=
  ⟨rfl, rfl, rfl⟩

/-- Modelled from the spec: `hasRole` from the session store
(`src/lib/store/auth` is not among the sources) compares the current
user's role against a required role by case-sensitive exact match over
the closed role set. -/
def hasRole (u : UserResponse) (r : Role) : Bool :=
  u.role == r

/-- The route guard's terminal states, as named by the spec's state
machine for `ProtectedRoute`. -/
inductive GuardState where
  | Initializing
  | Unauthenticated
  | Forbidden
  | Authorized
deriving DecidableEq, Repr

/-- Outcome of one mount of `ProtectedRoute`: the terminal state it
reaches, the client-side redirects it fires (`router.push` calls), and
the Session Store after the mount. -/
structure GuardResult where
  terminal : GuardState
  redirects : List String
  store : AuthState
deriving DecidableEq, Repr

/-- The render branch of `ProtectedRoute` once initialization completed
(`src` guard component, lines 76-103): `!isAuthenticated || !user` yields
the unauthenticated null render, then a non-empty `requiredRole` list
none of whose entries passes `hasRole` yields the 403 view, otherwise the
children render. -/
def renderDecision (st : AuthState) (requiredRole : List Role) : GuardState :=
  match st.user with
  | none => GuardState.Unauthenticated
  | some u =>
    if !st.isAuthenticated then GuardState.Unauthenticated
    else if requiredRole.length > 0 && !(requiredRole.any fun r => hasRole u r)
      then GuardState.Forbidden
    else GuardState.Authorized

/-- One mount of `ProtectedRoute` (its effect plus its render): the
effect sets loading, redirects to `/login` when no token is held, fetches
the profile when a token but no user is cached (on success caching it via
the store's `login`, on failure calling `logout` and redirecting to
`/login`), and otherwise completes so the render decision applies.  The
effect body runs once per mount for a fixed dependency tuple, so the
redirect list it returns is everything the mount fires. -/
def runGuard (st : AuthState) (requiredRole : List Role)
    (fetchProfile : Except Unit UserResponse) : GuardResult :=
  let st0 := setLoading st true
  match st0.token with
  | none =>
    { terminal := GuardState.Unauthenticated
      redirects := ["/login"]
      store := setLoading st0 false }
  | some t =>
    match st0.user with
    | none =>
      match fetchProfile with
      | Except.ok u =>
        let st2 := setLoading (login st0 t u) false
        { terminal := renderDecision st2 requiredRole
          redirects := []
          store := st2 }
      | Except.error _ =>
        { terminal := GuardState.Unauthenticated
          redirects := ["/login"]
          store := setLoading (logout st0) false }
    | some _ =>
      let st2 := setLoading st0 false
      { terminal := renderDecision st2 requiredRole
        redirects := []
        store := st2 }

theorem any_hasRole_eq_mem (u : UserResponse) (req : List Role) :
    (req.any fun r => hasRole u r) = decide (u.role ∈ req) := by
  induction req with
  | nil => simp
  | cons r rest ih =>
    simp only [List.any_cons, hasRole] at ih ⊢
    rw [ih]
    by_cases h : u.role = r
    · simp [h]
    · simp [h, List.mem_cons]

/-- **C4.** Role evaluation of a mounted guard whose session holds a
token and a cached user: when the required-role list is empty or the
user's role belongs to it the guard reaches `Authorized` (children
render), otherwise it reaches `Forbidden` (403 view); in either case it
fires no redirect, and the store keeps its token and user. -/
theorem guard_role_evaluation (t : String) (u : UserResponse) (l : Bool)
    (req : List Role) (f : Except Unit UserResponse) :
    runGuard { token := some t, user := some u, isLoading := l,
               isAuthenticated := true } req f =
      { terminal := if req = [] ∨ u.role ∈ req then GuardState.Authorized
                    else GuardState.Forbidden
        redirects := []
        store := { token := some t, user := some u, isLoading := false,
                   isAuthenticated := true } } := by
  simp only [runGuard, setLoading, renderDecision, any_hasRole_eq_mem]
  by_cases hreq : req = []
  · subst hreq; simp
  · by_cases hmem : u.role ∈ req
    · simp [hreq, hmem]
    · simp [hreq, hmem, List.length_pos, GuardResult.mk.injEq]

/-- **C8.** A guard mounted with no token in the Session Store reaches
`Unauthenticated` and fires exactly one redirect, to `/login`: the
redirect list of the mount is precisely `["/login"]`.  The mount's effect
body runs once per dependency tuple, so no redirect loop arises from this
detection. -/
theorem guard_no_token_redirects_once (u : Option UserResponse) (l a : Bool)
    (req : List Role) (f : Except Unit UserResponse) :
    runGuard { token := none, user := u, isLoading := l,
               isAuthenticated := a } req f =
      { terminal := GuardState.Unauthenticated
        redirects := ["/login"]
        store := { token := none, user := u, isLoading := false,
                   isAuthenticated := a } } :=
  rfl

/-- JavaScript string whitespace (`\s` and `String.prototype.trim`):
space, tab, line feed, carriage return, vertical tab, form feed, and the
Unicode space separators, NBSP, BOM, and line/paragraph separators. -/
def isJsWhitespace (c : Char) : Bool :=
  c = ' ' || c = '\t' || c = '\n' || c = '\r' ||
  c.val = 0x0b || c.val = 0x0c || c.val = 0xa0 || c.val = 0x1680 ||
  (0x2000 ≤ c.val && c.val ≤ 0x200a) ||
  c.val = 0x2028 || c.val = 0x2029 || c.val = 0x202f || c.val = 0x205f ||
  c.val = 0x3000 || c.val = 0xfeff

/-- JavaScript line terminators, the characters `.` does not match in a
regular expression without the `s` flag: LF, CR, LINE SEPARATOR, and
PARAGRAPH SEPARATOR. -/
def isJsLineTerm (c : Char) : Bool :=
  c = '\n' || c = '\r' || c.val = 0x2028 || c.val = 0x2029

/-- ASCII lowercase letter, the `[a-z]` character class. -/
def isAsciiLower (c : Char) : Bool := 'a' ≤ c && c ≤ 'z'

/-- ASCII uppercase letter, the `[A-Z]` character class. -/
def isAsciiUpper (c : Char) : Bool := 'A' ≤ c && c ≤ 'Z'

/-- ASCII digit, the `\d` character class. -/
def isAsciiDigit (c : Char) : Bool := '0' ≤ c && c ≤ '9'

/-- `String.prototype.length`: the number of UTF-16 code units (characters
beyond the Basic Multilingual Plane count twice). -/
def jsLength (s : String) : Nat :=
  (s.toList.map fun c => if c.val < 0x10000 then 1 else 2).sum

/-- `String.prototype.trim`: strip JavaScript whitespace from both ends. -/
def jsTrim (s : String) : String :=
  String.mk (((s.toList.dropWhile isJsWhitespace).reverse.dropWhile
    isJsWhitespace).reverse)

/-- All suffixes of a list, longest first, ending with the empty one —
the candidate match start positions a regular-expression search tries. -/
def tailsOf : List Char → List (List Char)
  | [] => [[]]
  | c :: cs => (c :: cs) :: tailsOf cs

/-- Semantics of `/(?=.*[a-z])(?=.*[A-Z])(?=.*\d)/.test(s)`: the search
succeeds iff at some start position all three lookaheads hold, and a
lookahead `(?=.*[X])` holds iff a character of class `X` occurs at or
after the start position with no line terminator before it (since `.`
matches no line terminator).  Equivalently: some suffix of the string has
a lowercase letter, an uppercase letter, and a digit inside its initial
line-terminator-free segment. -/
def strengthRegexTest (s : String) : Bool :=
  (tailsOf s.toList).any fun suf =>
    let seg := suf.takeWhile fun c => !isJsLineTerm c
    seg.any isAsciiLower && seg.any isAsciiUpper && seg.any isAsciiDigit

/-- Semantics of `/\S+@\S+\.\S+/.test(s)`: an unanchored search, which
succeeds iff some positions `p < q` carry `'@'` and `'.'` such that the
character just before the `'@'` is non-whitespace, the characters strictly
between `'@'` and `'.'` are non-whitespace and at least one exists, and
the character just after the `'.'` exists and is non-whitespace (each
`\S+` can always shrink to, or is bounded below by, one character, so
these boundary characters decide matchability). -/
def jsEmailRegexTest (s : String) : Bool :=
  let l := s.toList
  let n := l.length
  (List.range n).any fun p =>
    (List.range n).any fun q =>
      decide (1 ≤ p) && decide (p + 2 ≤ q) && decide (q + 1 < n) &&
      (l.getD p ' ' == '@') && (l.getD q ' ' == '.') &&
      !isJsWhitespace (l.getD (p - 1) ' ') &&
      !isJsWhitespace (l.getD (q + 1) ' ') &&
      ((l.drop (p + 1)).take (q - (p + 1))).all fun c => !isJsWhitespace c

/-- This second definition follows the spec's words, for comparison: the
whole email string (not merely a substring of it) has the basic
`local@domain.tld` shape, i.e. it is `\S+@\S+\.\S+` anchored at both
ends: no whitespace anywhere, and some `'@'` with a character before it
is followed, at least two positions later, by a `'.'` with a character
after it. -/
def specEmailShape (s : String) : Bool :=
  let l := s.toList
  let n := l.length
  (l.all fun c => !isJsWhitespace c) &&
  ((List.range n).any fun p =>
    (List.range n).any fun q =>
      decide (1 ≤ p) && decide (p + 2 ≤ q) && decide (q + 1 < n) &&
      (l.getD p ' ' == '@') && (l.getD q ' ' == '.'))

/-- This second definition follows the spec's words, for comparison:
password strength per the spec sentence — length at least 8, and the
string contains a lowercase letter, an uppercase letter, and a digit. -/
def specPasswordStrengthOk (s : String) : Bool :=
  decide (8 ≤ jsLength s) && s.toList.any isAsciiLower &&
  s.toList.any isAsciiUpper && s.toList.any isAsciiDigit

/-- The error mapping produced by `validateForm` in
`src/components/auth/RegisterForm.tsx` (field name → message, `none` for
an absent entry). -/
structure RegisterErrors where
  firstName : Option String
  lastName : Option String
  email : Option String
  password : Option String
  confirmPassword : Option String
deriving DecidableEq, Repr

/-- `validateForm` from `src/components/auth/RegisterForm.tsx` lines
36-79, field by field: trimmed names required with at least 2 characters;
email required and tested against `/\S+@\S+\.\S+/`; password required,
at least 8 characters, and tested against the three-lookahead strength
regex; confirmation required and equal to the password. -/
def validateForm (firstName lastName email password confirmPassword : String) :
    RegisterErrors :=
  { firstName :=
      if jsTrim firstName = "" then some "First name is required"
      else if jsLength (jsTrim firstName) < 2 then
        some "First name must be at least 2 characters"
      else none
    lastName :=
      if jsTrim lastName = "" then some "Last name is required"
      else if jsLength (jsTrim lastName) < 2 then
        some "Last name must be at least 2 characters"
      else none
    email :=
      if email = "" then some "Email is required"
      else if !jsEmailRegexTest email then some "Email is invalid"
      else none
    password :=
      if password = "" then some "Password is required"
      else if jsLength password < 8 then
        some "Password must be at least 8 characters"
      else if !strengthRegexTest password then
        some "Password must contain at least one uppercase letter, one lowercase letter, and one number"
      else none
    confirmPassword :=
      if confirmPassword = "" then some "Please confirm your password"
      else if password ≠ confirmPassword then some "Passwords do not match"
      else none }

/-- The error mapping produced by `validatePassword` in
`src/components/profile/ProfileManager.tsx`. -/
structure PasswordErrors where
  currentPassword : Option String
  newPassword : Option String
  confirmPassword : Option String
deriving DecidableEq, Repr

/-- `validatePassword` from `src/components/profile/ProfileManager.tsx`
lines 69-100: current password required; new password required, at least
8 characters, and strength-tested; confirmation required and equal to the
new password; finally, an equal current and new password unconditionally
overwrites the `newPassword` entry with a "must be different" message. -/
def validatePassword (currentPassword newPassword confirmPassword : String) :
    PasswordErrors :=
  let currentE :=
    if currentPassword = "" then some "Current password is required" else none
  let newE :=
    if newPassword = "" then some "New password is required"
    else if jsLength newPassword < 8 then
      some "Password must be at least 8 characters"
    else if !strengthRegexTest newPassword then
      some "Password must contain at least one uppercase letter, one lowercase letter, and one number"
    else none
  let confirmE :=
    if confirmPassword = "" then some "Please confirm your new password"
    else if newPassword ≠ confirmPassword then some "Passwords do not match"
    else none
  let newE2 :=
    if currentPassword = newPassword then
      some "New password must be different from current password"
    else newE
  { currentPassword := currentE, newPassword := newE2,
    confirmPassword := confirmE }

/-- `Object.keys(errors).length === 0`, the sole success signal of
`validatePassword`. -/
def passwordFormValid (e : PasswordErrors) : Bool :=
  e.currentPassword.isNone && e.newPassword.isNone && e.confirmPassword.isNone

/-- **C5.** Evaluation at the failing input `"AAAA1111\naaaa"`: this
password has length at least 8 and contains a lowercase letter, an
uppercase letter, and a digit, so the claim (and the code's own error
message) say it must be accepted, yet `validateForm` adds a password
error: the unanchored lookahead regex cannot scan past the newline, so no
single start position sees all three character classes. -/
theorem password_strength_newline_divergence :
    specPasswordStrengthOk "AAAA1111\naaaa" = true ∧
    (validateForm "John" "Doe" "a@b.cd" "AAAA1111\naaaa"
        "AAAA1111\naaaa").password =
      some "Password must contain at least one uppercase letter, one lowercase letter, and one number" :=
  ⟨rfl, rfl⟩

/-- **C6.** Password-change validation: a confirmation differing from the
new password always yields a `confirmPassword` entry (the required-message
when it is empty, the mismatch message otherwise); an equal current and
new password always yields a `newPassword` entry regardless of strength
(the final overwrite is unconditional); and the validator's success
signal holds iff every entry of the mapping is absent. -/
theorem validatePassword_properties (cur nw cf : String) :
    (nw ≠ cf → (validatePassword cur nw cf).confirmPassword ≠ none) ∧
    (cur = nw → (validatePassword cur nw cf).newPassword ≠ none) ∧
    (passwordFormValid (validatePassword cur nw cf) = true ↔
      (validatePassword cur nw cf).currentPassword = none ∧
      (validatePassword cur nw cf).newPassword = none ∧
      (validatePassword cur nw cf).confirmPassword = none) := by
  refine ⟨?_, ?_, ?_⟩
  · intro hne
    by_cases hcf : cf = "" <;> simp [validatePassword, hcf, hne]
  · intro heq
    simp [validatePassword, heq]
  · simp [passwordFormValid, Option.isNone_iff_eq_none, and_assoc]

/-- Witness for C6 at `cur = "x"`, `nw = "x"`, `cf = "y"`, where both
antecedents hold. -/
theorem validatePassword_properties_witness :
    (validatePassword "x" "x" "y").confirmPassword ≠ none ∧
    (validatePassword "x" "x" "y").newPassword ≠ none :=
  ⟨(validatePassword_properties "x" "x" "y").1 (by decide),
   (validatePassword_properties "x" "x" "y").2.1 rfl⟩

/-- **C9 counterexample.** The claim says a string that merely contains a
`local@domain.tld` shape surrounded by other characters is rejected, but
`"hello a@b.c world"` is not of the anchored shape (it contains spaces)
and `validateForm` still adds no email error, because `test` with the
unanchored `/\S+@\S+\.\S+/` searches for a match anywhere. -/
theorem email_substring_accepted_counterexample :
    (validateForm "John" "Doe" "hello a@b.c world" "Passw0rdX"
        "Passw0rdX").email = none ∧
    specEmailShape "hello a@b.c world" = false :=
  ⟨rfl, rfl⟩

/-- **C9 amended.** Registration email validation accepts a string iff it
is non-empty and contains at least one substring matching
`\S+@\S+\.\S+` — whole-string anchoring is not enforced, so surrounding
characters do not cause rejection. -/
theorem validateForm_email_accepts_iff
    (fn ln em pw cf : String) :
    (validateForm fn ln em pw cf).email = none ↔
      em ≠ "" ∧ jsEmailRegexTest em = true := by
  by_cases h : em = ""
  · simp [validateForm, h]
  · by_cases ht : jsEmailRegexTest em <;> simp [validateForm, h, ht]

/-- Result of the Next.js middleware: pass the request through or
redirect it. -/
inductive MiddlewareResult where
  | next
  | redirectTo (target : String)
deriving DecidableEq, Repr

/-- The protected route list from `src/middleware.ts`. -/
def protectedRoutes : List String :=
  ["/profile", "/admin", "/employee", "/customer"]

/-- The public route list from `src/middleware.ts`. -/
def publicRoutes : List String :=
  ["/", "/login", "/register", "/about", "/contact"]

/-- `middleware` from `src/middleware.ts` lines 10-51.  The source also
computes `isAdminRoute` and `isEmployeeRoute`, but neither influences the
returned value; the protected branch only early-returns `next` for
`/login` and `/register`, falls through otherwise, and every remaining
path also returns `NextResponse.next()`. -/
def middleware (pathname : String) : MiddlewareResult :=
  let isProtectedRoute := protectedRoutes.any fun route =>
    pathname.startsWith route
  if isProtectedRoute && (pathname == "/login" || pathname == "/register")
    then MiddlewareResult.next
  else if publicRoutes.contains pathname then MiddlewareResult.next
  else MiddlewareResult.next

/-- **C10.** The server-side route middleware never blocks or redirects:
for every request path (in particular the protected paths `/profile`,
`/admin`, `/employee`, `/customer` matched by its configuration) it
returns `NextResponse.next()`, so edge route protection is a
pass-through and all enforcement is client-side. -/
theorem middleware_always_next (pathname : String) :
    middleware pathname = MiddlewareResult.next := by
  simp [middleware]

end NexusAuto
